import Mathlib

/-!
Verification of the insurance fraud-detection core.

Shallow embedding of the Python services:
  * `app/services/embedding_service.py`   (EmbeddingService, FingerprintService,
    SimilarityService)
  * `app/services/gemini_fraud_analyzer.py` (GeminiFraudAnalyzer._fallback_analysis)
  * `app/services/claim_service.py`       (ClaimProcessingService)
  * `app/api/routes/claims.py`            (analyze_claim route validation)

Floating-point values are modelled as rationals where the code only adds,
divides and compares fixed constants, and as real numbers where square roots
are involved (cosine similarity).  Cryptographic hash functions (sha256, md5)
are not reimplemented: the embedding takes the digest-producing function as an
explicit argument, so every theorem holds for an arbitrary digest function.
Python exceptions of the modelled fragments (numpy shape mismatch, division by
zero on empty strings) are modelled with `Option`, `none` meaning the call
raises.
-/

set_option linter.unusedVariables false

namespace FraudDetector

/-! ## SimilarityService.hamming_distance (embedding_service.py, lines 273-295)

`hamming_distance` returns 0.0 when the lengths differ, otherwise
`1.0 - differences / len(hash1)`.  When both strings are empty the Python
code raises `ZeroDivisionError`; that case is `none`. -/

def hamming_distance (hash1 hash2 : List Char) : Option ℚ :=
  if hash1.length ≠ hash2.length then
    some 0
  else if hash1.length = 0 then
    none
  else
    let differences := (List.zip hash1 hash2).countP (fun p => p.1 ≠ p.2)
    some (1 - (differences : ℚ) / (hash1.length : ℚ))

/-! ## FingerprintService.calculate_damage_severity_score
(embedding_service.py, lines 202-240)

The description is modelled as a list of characters; `word in text_lower`
is list-infix containment on the lowercased character list. -/

def high_severity_words : List (List Char) :=
  ["total loss".toList, "critical".toList, "severe".toList, "major".toList,
   "extensive".toList, "destroyed".toList, "crushed".toList, "fire".toList,
   "explosion".toList, "collision".toList]

def calculate_damage_severity_score (damage_description : List Char)
    (image_count : ℕ) : ℚ :=
  let severity : ℚ := 0
  let severity := severity + min ((damage_description.length : ℚ) / 1000) (3/10)
  let severity := severity + min ((image_count : ℚ) / 10) (3/10)
  let text_lower := damage_description.map Char.toLower
  let keyword_matches := high_severity_words.countP (fun w => decide (w <:+: text_lower))
  let severity := severity + min ((keyword_matches : ℚ) / 5) (2/5)
  min severity 1

/-! ## ClaimProcessingService._map_recommendation (claim_service.py, lines 467-479) -/

/-- Python `str.upper()`, character by character (exact for ASCII). -/
def pyUpper (s : String) : String := String.mk (s.data.map Char.toUpper)

def map_recommendation (fraud_risk_level : String) (fraud_risk_score : ℚ) : String :=
  let level := pyUpper (if fraud_risk_level = "" then "LOW" else fraud_risk_level)
  if level = "HIGH" ∨ level = "CRITICAL" then "INVESTIGATE"
  else if level = "MEDIUM" then "HOLD"
  else if fraud_risk_score ≥ 1/2 then "HOLD"
  else "PROCEED"

/-! ## GeminiFraudAnalyzer._fallback_analysis (gemini_fraud_analyzer.py, lines 280-354) -/

structure FallbackAnalysis where
  fraud_risk_level : String
  fraud_score : ℚ
  confidence : ℚ
  red_flags : List String
  reasoning : String
  recommendations : List String
deriving DecidableEq, Repr

def fallback_analysis (incident_type : String) (damage_description : String)
    (temporal_pattern_score spatial_cluster_score : ℚ)
    (similar_count : ℕ) : FallbackAnalysis :=
  if similar_count = 0 then
    { fraud_risk_level := "LOW"
      fraud_score := 1/10
      confidence := 7/10
      red_flags := ["No similar historical incidents found"]
      reasoning := "First-time pattern. No historical matches found for comparison. Standard verification recommended."
      recommendations := ["Process as new claim pattern",
        "Standard documentation verification",
        "Monitor for future similar patterns"] }
  else
    let risk_score : ℚ := 0
    let red_flags : List String := []
    let risk_score := if temporal_pattern_score > 7/10 then risk_score + 3/10 else risk_score
    let red_flags := if temporal_pattern_score > 7/10 then
        red_flags ++ ["Unusual timing pattern detected"] else red_flags
    let risk_score := if spatial_cluster_score > 7/10 then risk_score + 3/10 else risk_score
    let red_flags := if spatial_cluster_score > 7/10 then
        red_flags ++ ["High concentration of incidents in area"] else red_flags
    let risk_score := if similar_count > 5 then risk_score + 2/10 else risk_score
    let red_flags := if similar_count > 5 then
        red_flags ++ ["Multiple similar incidents found (" ++ toString similar_count ++ ")"]
      else red_flags
    let desc_len := damage_description.length
    let risk_score :=
      if desc_len < 50 then risk_score + 1/10
      else if desc_len > 2000 then risk_score + 5/100
      else risk_score
    let red_flags :=
      if desc_len < 50 then red_flags ++ ["Insufficient damage description"]
      else if desc_len > 2000 then red_flags ++ ["Unusually detailed description"]
      else red_flags
    let risk_level :=
      if risk_score ≥ 75/100 then "CRITICAL"
      else if risk_score ≥ 5/10 then "HIGH"
      else if risk_score ≥ 3/10 then "MEDIUM"
      else "LOW"
    { fraud_risk_level := risk_level
      fraud_score := min risk_score 1
      confidence := 6/10
      red_flags := if red_flags = [] then ["No significant red flags detected"] else red_flags
      reasoning := "Basic heuristic analysis (Gemini AI unavailable). Review flagged patterns manually."
      recommendations := ["Manual review recommended for claims with multiple red flags",
        "Consider requesting additional documentation",
        "Verify claimant identity and history"] }

/-! ## EmbeddingService._generate_fallback_embedding
(embedding_service.py, lines 126-143)

`sha256` (the digest function, returning the list of digest bytes) is passed
as an argument; the Python code calls `hashlib.sha256(data).digest()`, whose
result always has 32 bytes. -/

def generate_fallback_embedding (sha256 : List ℕ → List ℕ) (data : List ℕ)
    (dim : ℕ := 768) : List ℚ :=
  let data_hash := sha256 data
  (List.range dim).map (fun i => (data_hash.getD (i % data_hash.length) 0 : ℚ) / 255)

/-! ## FingerprintService.generate_spatial_fingerprint
(embedding_service.py, lines 149-164)

`md5hex` is the hex-digest function (`hashlib.md5(..).hexdigest()`), passed
as an argument. -/

def generate_spatial_fingerprint (md5hex : String → String) (location_zone : String) : String :=
  (md5hex location_zone).take 16

/-! ## FingerprintService.generate_temporal_fingerprint
(embedding_service.py, lines 166-200)

Python `datetime` values are modelled by their year/month/day/hour fields;
`strftime("%A")` / `strftime("%B")` are reimplemented over the proleptic
Gregorian calendar exactly as CPython computes them (`toordinal`). -/

structure PyDateTime where
  year : ℕ
  month : ℕ
  day : ℕ
  hour : ℕ
deriving DecidableEq, Repr

def isLeapYear (y : ℕ) : Bool :=
  (y % 4 = 0 && y % 100 ≠ 0) || y % 400 = 0

def monthLengths (leap : Bool) : List ℕ :=
  [31, if leap then 29 else 28, 31, 30, 31, 30, 31, 31, 30, 31, 30, 31]

def daysBeforeYear (y : ℕ) : ℕ :=
  365 * (y - 1) + (y - 1) / 4 - (y - 1) / 100 + (y - 1) / 400

def daysBeforeMonth (y m : ℕ) : ℕ :=
  ((monthLengths (isLeapYear y)).take (m - 1)).sum

def toordinal (d : PyDateTime) : ℕ :=
  daysBeforeYear d.year + daysBeforeMonth d.year d.month + d.day

def dayNames : List String :=
  ["Monday", "Tuesday", "Wednesday", "Thursday", "Friday", "Saturday", "Sunday"]

def monthNames : List String :=
  ["January", "February", "March", "April", "May", "June", "July",
   "August", "September", "October", "November", "December"]

def strftimeA (d : PyDateTime) : String :=
  dayNames.getD ((toordinal d + 6) % 7) ""

def strftimeB (d : PyDateTime) : String :=
  monthNames.getD (d.month - 1) ""

def temporal_str (incident_date : PyDateTime) : String :=
  strftimeA incident_date ++ "_" ++ strftimeB incident_date ++ "_" ++
    toString ((incident_date.hour / 4) * 4) ++ "h_" ++
    toString incident_date.day ++ "d"

def generate_temporal_fingerprint (md5hex : String → String)
    (incident_date time_window_start time_window_end : PyDateTime) : String :=
  (md5hex (temporal_str incident_date)).take 16

/-! ## ClaimProcessingService._process_images and the embedding steps of
submit_and_analyze_claim (claim_service.py, lines 102-147 and 216-229)

The system is modelled in its provider-less configuration (`gemini_client`
is `None`), in which every embedding goes through the deterministic fallback
path.  `valid` models `ImageProcessingService.validate_image`; masking is the
identity in the source.  `np.mean(_, axis=0)` is the element-wise mean. -/

def elementwise_mean (embeddings : List (List ℚ)) : List ℚ :=
  match embeddings with
  | [] => []
  | v :: rest =>
    (rest.foldl (fun acc w => List.zipWith (· + ·) acc w) v).map
      (fun x => x / (embeddings.length : ℚ))

def placeholder_image_embedding : List ℚ := List.replicate 128 (1/2)

def process_images (sha256 : List ℕ → List ℕ) (valid : List ℕ → Bool)
    (image_files : List (List ℕ)) : List ℚ × List (List ℕ) :=
  if image_files = [] then
    (placeholder_image_embedding, [])
  else
    let processed := image_files.filter valid
    let processed_embeddings := processed.map (fun b => generate_fallback_embedding sha256 b)
    if processed_embeddings = [] then
      (placeholder_image_embedding, processed)
    else
      (elementwise_mean processed_embeddings, processed)

/-- The persisted `IncidentFingerprint` row (claim_service.py, lines 216-229). -/
structure IncidentFingerprintRec where
  image_embedding : List ℚ
  text_embedding : List ℚ
  spatial_fingerprint : String
  temporal_fingerprint : String
  incident_type_code : String
  damage_severity_score : ℚ
  embedding_model_version : String
deriving Repr

/-- UTF-8 code points of a description, standing for `text.encode()`
(exact for the ASCII descriptions the system handles). -/
def strBytes (s : String) : List ℕ := s.toList.map Char.toNat

/-- Steps 2, 3, 4 and 7 of `submit_and_analyze_claim`: the embeddings and
fingerprints that end up in the persisted `IncidentFingerprint` row. -/
def submit_claim_fingerprint (sha256 : List ℕ → List ℕ) (valid : List ℕ → Bool)
    (md5hex : String → String) (incident_type : String)
    (damage_description : String) (location_zone : String)
    (incident_date_approx time_window_start time_window_end : PyDateTime)
    (image_files : List (List ℕ)) : IncidentFingerprintRec :=
  let image_embedding? :=
    if image_files = [] then none
    else some (process_images sha256 valid image_files).1
  let text_embedding := generate_fallback_embedding sha256 (strBytes damage_description)
  let image_embedding := image_embedding?.getD (List.replicate 128 (1/2))
  { image_embedding := image_embedding
    text_embedding := text_embedding
    spatial_fingerprint := generate_spatial_fingerprint md5hex location_zone
    temporal_fingerprint := generate_temporal_fingerprint md5hex incident_date_approx
      time_window_start time_window_end
    incident_type_code := incident_type
    damage_severity_score := calculate_damage_severity_score damage_description.toList
      image_files.length
    embedding_model_version := "1.0" }

/-! ## analyze_claim route validation (api/routes/claims.py, lines 90-168)

Inputs arrive already parsed (enum candidate strings, datetimes as integer
timestamps ordered as Python datetimes are).  The pipeline body is passed as
a function so that the theorems can state that rejected submissions never
reach it. -/

def incident_type_values : List String :=
  ["motor_damage", "collision", "theft", "property_damage", "fire", "water_damage", "other"]

def location_zone_values : List String :=
  ["zone_a", "zone_b", "zone_c", "zone_d", "zone_e"]

inductive ApiOutcome (α : Type) where
  | ok : α → ApiOutcome α
  | error : ℕ → String → ApiOutcome α
deriving DecidableEq, Repr

def ApiOutcome.isErr {α : Type} : ApiOutcome α → Bool
  | .ok _ => false
  | .error _ _ => true

structure ClaimForm where
  incident_type : String
  damage_description : String
  location_zone : String
  incident_date_approx : ℤ
  incident_time_window_start : ℤ
  incident_time_window_end : ℤ
deriving DecidableEq, Repr

def analyze_claim {α : Type} (run_pipeline : ClaimForm → List (List ℕ) → α)
    (form : ClaimForm) (damage_images : List (List ℕ)) : ApiOutcome α :=
  if form.incident_type ∉ incident_type_values then
    .error 422 "Invalid incident_type. Must be one of: motor_damage, collision, theft, property_damage, fire, water_damage, other"
  else if form.location_zone ∉ location_zone_values then
    .error 422 "Invalid location_zone. Must be one of: zone_a, zone_b, zone_c, zone_d, zone_e"
  else if form.incident_time_window_end ≤ form.incident_time_window_start then
    .error 422 "Time window end must be after time window start"
  else if damage_images.length > 5 then
    .error 422 "Maximum 5 images allowed per claim"
  else
    .ok (run_pipeline form damage_images)

/-! ## SimilarityService.cosine_similarity (embedding_service.py, lines 246-271)

Vectors of floats are modelled as lists of reals.  `np.dot` raises
`ValueError` on vectors of different lengths (`none`); `np.linalg.norm` is
the Euclidean norm. -/

noncomputable def vec_norm (v : List ℝ) : ℝ :=
  Real.sqrt ((v.map fun x => x * x).sum)

noncomputable def dot_product (vec1 vec2 : List ℝ) : ℝ :=
  (List.zipWith (· * ·) vec1 vec2).sum

open Classical in
noncomputable def cosine_similarity (vec1 vec2 : List ℝ) : Option ℝ :=
  if vec1.length ≠ vec2.length then none
  else
    let norm1 := vec_norm vec1
    let norm2 := vec_norm vec2
    if norm1 = 0 ∨ norm2 = 0 then some 0
    else some (max 0 ((dot_product vec1 vec2 / (norm1 * norm2) + 1) / 2))

/-! ## SimilarityService.find_similar_incidents (embedding_service.py, lines 297-419)

A stored `IncidentFingerprint` row together with its eagerly loaded claim
and user; `claim = none` and any exception while comparing lead to the
record being skipped (`score_incident = none`). -/

structure StoredClaim where
  claim_reference_id : String
  organization_name : Option String
  location_zone : String
  incident_date : ℤ
deriving Repr

structure HistoricalFingerprint where
  id : ℕ
  text_embedding : List ℝ
  image_embedding : List ℝ
  spatial_fingerprint : List Char
  temporal_fingerprint : List Char
  incident_type_code : String
  claim : Option StoredClaim

structure QueryFingerprint where
  text_embedding : List ℝ
  image_embedding : List ℝ
  spatial_fingerprint : List Char
  temporal_fingerprint : List Char

structure SimilarityMatch where
  fingerprint_id : ℕ
  overall_similarity : ℝ
  text_similarity : ℝ
  image_similarity : ℝ
  spatial_similarity : ℝ
  temporal_similarity : ℝ
  incident_type : String
  incident_date : ℤ
  claim_reference_id : String
  organization_name : String
  location_zone : String

/-- One iteration of the comparison loop: `none` models `continue`
(missing claim, or an exception during the comparison). -/
noncomputable def score_incident (q : QueryFingerprint)
    (incident : HistoricalFingerprint) : Option SimilarityMatch := do
  let claim ← incident.claim
  let organization_name := claim.organization_name.getD "Unknown"
  let text_sim ← cosine_similarity q.text_embedding incident.text_embedding
  let image_sim ← cosine_similarity q.image_embedding incident.image_embedding
  let spatial_q ← hamming_distance q.spatial_fingerprint incident.spatial_fingerprint
  let temporal_q ← hamming_distance q.temporal_fingerprint incident.temporal_fingerprint
  let spatial_sim : ℝ := (spatial_q : ℝ)
  let temporal_sim : ℝ := (temporal_q : ℝ)
  let overall_similarity :=
    text_sim * 0.25 + image_sim * 0.35 + spatial_sim * 0.20 + temporal_sim * 0.20
  pure { fingerprint_id := incident.id
         overall_similarity := overall_similarity
         text_similarity := text_sim
         image_similarity := image_sim
         spatial_similarity := spatial_sim
         temporal_similarity := temporal_sim
         incident_type := incident.incident_type_code
         incident_date := claim.incident_date
         claim_reference_id := claim.claim_reference_id
         organization_name := organization_name
         location_zone := claim.location_zone }

/-! The `matches` list accumulated by the loop: scored records whose overall
similarity exceeds the 0.3 threshold. -/

open Classical in
noncomputable def match_list (q : QueryFingerprint)
    (historical : List HistoricalFingerprint) : List SimilarityMatch :=
  historical.filterMap (fun incident =>
    (score_incident q incident).bind (fun e =>
      if e.overall_similarity > 0.3 then some e else none))

/-- `matches.sort(key=lambda x: x["overall_similarity"], reverse=True)`:
descending order of overall similarity. -/
def byOverallDesc (a b : SimilarityMatch) : Prop :=
  b.overall_similarity ≤ a.overall_similarity

noncomputable instance : DecidableRel byOverallDesc := fun _ _ => Classical.dec _

instance : IsTotal SimilarityMatch byOverallDesc :=
  ⟨fun a b => le_total b.overall_similarity a.overall_similarity⟩

instance : IsTrans SimilarityMatch byOverallDesc :=
  ⟨fun _ _ _ h1 h2 => le_trans h2 h1⟩

noncomputable def sort_matches (l : List SimilarityMatch) : List SimilarityMatch :=
  List.insertionSort byOverallDesc l

noncomputable def find_similar_incidents (q : QueryFingerprint)
    (historical : List HistoricalFingerprint) (limit : ℕ := 10) : List SimilarityMatch :=
  (sort_matches (match_list q historical)).take limit

/-! Concrete query and historical record used to exercise the similarity
scan: both embeddings are the zero vector [0] (zero norm, similarity 0) and
the structural fingerprints agree, so the overall similarity is
0.20 + 0.20 = 0.4. -/

noncomputable def sample_query : QueryFingerprint :=
  { text_embedding := [0]
    image_embedding := [0]
    spatial_fingerprint := ['a']
    temporal_fingerprint := ['a'] }

noncomputable def sample_incident : HistoricalFingerprint :=
  { id := 7
    text_embedding := [0]
    image_embedding := [0]
    spatial_fingerprint := ['a']
    temporal_fingerprint := ['a']
    incident_type_code := "collision"
    claim := some { claim_reference_id := "CLM-1"
                    organization_name := some "Alpha Insurance"
                    location_zone := "zone_a"
                    incident_date := 0 } }

noncomputable def sample_match : SimilarityMatch :=
  { fingerprint_id := 7
    overall_similarity := 0.4
    text_similarity := 0
    image_similarity := 0
    spatial_similarity := 1
    temporal_similarity := 1
    incident_type := "collision"
    incident_date := 0
    claim_reference_id := "CLM-1"
    organization_name := "Alpha Insurance"
    location_zone := "zone_a" }

/-! ## Theorems -/

/-- Evaluations of `pyUpper` on the four tier names. -/
theorem pyUpper_tiers :
    pyUpper "LOW" = "LOW" ∧ pyUpper "MEDIUM" = "MEDIUM"
    ∧ pyUpper "HIGH" = "HIGH" ∧ pyUpper "CRITICAL" = "CRITICAL" :=
  ⟨rfl, rfl, rfl, rfl⟩

/-- C1 counterexample: at tier LOW with raw score exactly 0.5 the code returns
HOLD although 0.5 does not exceed 0.5, so the claimed mapping (PROCEED unless
the raw score exceeds 0.5) is false at this input. -/
theorem c1_low_at_half_counterexample :
    map_recommendation "LOW" (1/2) = "HOLD" ∧ ¬((1/2 : ℚ) > 1/2) := by
  constructor
  · simp [map_recommendation, pyUpper_tiers.1,
      (by decide : ("LOW" : String) ≠ ""),
      (by decide : ("LOW" : String) ≠ "HIGH"),
      (by decide : ("LOW" : String) ≠ "CRITICAL"),
      (by decide : ("LOW" : String) ≠ "MEDIUM")]
  · norm_num

/-- C1 (amended): HIGH or CRITICAL map to INVESTIGATE, MEDIUM maps to HOLD,
and LOW maps to HOLD when the raw score is at least 0.5 and to PROCEED
otherwise. -/
theorem c1_recommendation_mapping (level : String) (score : ℚ)
    (hlevel : level ∈ ["LOW", "MEDIUM", "HIGH", "CRITICAL"]) :
    ((level = "HIGH" ∨ level = "CRITICAL") →
        map_recommendation level score = "INVESTIGATE")
    ∧ (level = "MEDIUM" → map_recommendation level score = "HOLD")
    ∧ (level = "LOW" →
        map_recommendation level score = if score ≥ 1/2 then "HOLD" else "PROCEED") := by
  refine ⟨?_, ?_, ?_⟩
  · rintro (rfl | rfl)
    · simp [map_recommendation, pyUpper_tiers.2.2.1,
        (by decide : ("HIGH" : String) ≠ "")]
    · simp [map_recommendation, pyUpper_tiers.2.2.2,
        (by decide : ("CRITICAL" : String) ≠ ""),
        (by decide : ("CRITICAL" : String) ≠ "HIGH")]
  · rintro rfl
    simp [map_recommendation, pyUpper_tiers.2.1,
      (by decide : ("MEDIUM" : String) ≠ ""),
      (by decide : ("MEDIUM" : String) ≠ "HIGH"),
      (by decide : ("MEDIUM" : String) ≠ "CRITICAL")]
  · rintro rfl
    by_cases h : score ≥ 1/2 <;>
      simp [map_recommendation, pyUpper_tiers.1, h,
        (by decide : ("LOW" : String) ≠ ""),
        (by decide : ("LOW" : String) ≠ "HIGH"),
        (by decide : ("LOW" : String) ≠ "CRITICAL"),
        (by decide : ("LOW" : String) ≠ "MEDIUM")]

/-- C1 witness: the amended mapping evaluated at tier LOW with score 0. -/
theorem c1_recommendation_mapping_witness :
    ("LOW" : String) ∈ ["LOW", "MEDIUM", "HIGH", "CRITICAL"]
    ∧ map_recommendation "LOW" 0 = "PROCEED" := by
  have h := (c1_recommendation_mapping "LOW" 0 (by decide)).2.2 rfl
  norm_num at h
  exact ⟨by decide, h⟩

/-- C4: with zero historical matches the heuristic fallback returns tier LOW,
the fixed score 0.1 and the standard explanation, and the recommendation
mapping applied to that tier and score yields PROCEED. -/
theorem c4_zero_matches_low_proceed (incident_type damage_description : String)
    (temporal_pattern_score spatial_cluster_score : ℚ) :
    fallback_analysis incident_type damage_description
        temporal_pattern_score spatial_cluster_score 0
      = { fraud_risk_level := "LOW"
          fraud_score := 1/10
          confidence := 7/10
          red_flags := ["No similar historical incidents found"]
          reasoning := "First-time pattern. No historical matches found for comparison. Standard verification recommended."
          recommendations := ["Process as new claim pattern",
            "Standard documentation verification",
            "Monitor for future similar patterns"] }
    ∧ map_recommendation "LOW" (1/10) = "PROCEED" := by
  constructor
  · rfl
  · norm_num [map_recommendation, pyUpper_tiers.1,
      (by decide : ("LOW" : String) ≠ ""),
      (by decide : ("LOW" : String) ≠ "HIGH"),
      (by decide : ("LOW" : String) ≠ "CRITICAL"),
      (by decide : ("LOW" : String) ≠ "MEDIUM")]

/-- C5: with at least one match the heuristic fallback score is the sum of
the four fixed increments (temporal clustering, spatial clustering, match
count above 5, description length outside [50, 2000]), and the tier is cut
at 0.3, 0.5 and 0.75 exactly as claimed. -/
theorem c5_fallback_heuristic (incident_type damage_description : String)
    (temporal_pattern_score spatial_cluster_score : ℚ)
    (similar_count : ℕ) (hcount : similar_count ≠ 0) :
    (fallback_analysis incident_type damage_description
        temporal_pattern_score spatial_cluster_score similar_count).fraud_score
      = (if temporal_pattern_score > 7/10 then (3:ℚ)/10 else 0)
        + (if spatial_cluster_score > 7/10 then 3/10 else 0)
        + (if similar_count > 5 then 2/10 else 0)
        + (if damage_description.length < 50 then 1/10
           else if damage_description.length > 2000 then 5/100 else 0)
    ∧ (fallback_analysis incident_type damage_description
        temporal_pattern_score spatial_cluster_score similar_count).fraud_risk_level
      = (if (fallback_analysis incident_type damage_description
              temporal_pattern_score spatial_cluster_score similar_count).fraud_score
            ≥ 75/100 then "CRITICAL"
         else if (fallback_analysis incident_type damage_description
              temporal_pattern_score spatial_cluster_score similar_count).fraud_score
            ≥ 5/10 then "HIGH"
         else if (fallback_analysis incident_type damage_description
              temporal_pattern_score spatial_cluster_score similar_count).fraud_score
            ≥ 3/10 then "MEDIUM"
         else "LOW") := by
  by_cases h1 : temporal_pattern_score > 7/10 <;>
  by_cases h2 : spatial_cluster_score > 7/10 <;>
  by_cases h3 : similar_count > 5 <;>
  by_cases h4 : damage_description.length < 50 <;>
  by_cases h5 : damage_description.length > 2000 <;>
    norm_num [fallback_analysis, hcount, h1, h2, h3, h4, h5]

/-- C5 witness: one match configuration (temporal score 1, six matches, empty
description) accumulating 0.3 + 0.2 + 0.1 = 0.6 and landing in tier HIGH. -/
theorem c5_fallback_heuristic_witness :
    (6 : ℕ) ≠ 0
    ∧ (fallback_analysis "collision" "" 1 0 6).fraud_score = 6/10
    ∧ (fallback_analysis "collision" "" 1 0 6).fraud_risk_level = "HIGH" := by
  have h := c5_fallback_heuristic "collision" "" 1 0 6 (by decide)
  refine ⟨by decide, ?_, ?_⟩
  · rw [h.1]; norm_num
  · rw [h.2, h.1]; norm_num

/-- C9: the severity score is the sum of three independently capped
contributions (description length / 1000 capped at 0.3, image count / 10
capped at 0.3, keyword matches / 5 capped at 0.4), the total is capped at 1,
and the result always lies in [0, 1]. -/
theorem c9_severity_spec (damage_description : List Char) (image_count : ℕ) :
    calculate_damage_severity_score damage_description image_count
      = min (min ((damage_description.length : ℚ) / 1000) (3/10)
            + min ((image_count : ℚ) / 10) (3/10)
            + min (((high_severity_words.countP
                (fun w => decide (w <:+: damage_description.map Char.toLower))) : ℚ) / 5)
                (2/5)) 1
    ∧ 0 ≤ calculate_damage_severity_score damage_description image_count
    ∧ calculate_damage_severity_score damage_description image_count ≤ 1 := by
  have h1 : (0:ℚ) ≤ min ((damage_description.length : ℚ) / 1000) (3/10) :=
    le_min (by positivity) (by norm_num)
  have h2 : (0:ℚ) ≤ min ((image_count : ℚ) / 10) (3/10) :=
    le_min (by positivity) (by norm_num)
  have h3 : (0:ℚ) ≤ min (((high_severity_words.countP
      (fun w => decide (w <:+: damage_description.map Char.toLower))) : ℚ) / 5) (2/5) :=
    le_min (by positivity) (by norm_num)
  refine ⟨by simp [calculate_damage_severity_score], ?_, ?_⟩
  · simp only [calculate_damage_severity_score]
    refine le_min ?_ (by norm_num)
    linarith
  · simp only [calculate_damage_severity_score]
    exact min_le_right _ _

/-- In any list of character pairs, the pairs that agree and the pairs that
differ together count the whole list. -/
theorem countP_agree_add_countP_differ (l : List (Char × Char)) :
    l.countP (fun p => decide (p.1 = p.2)) + l.countP (fun p => decide (p.1 ≠ p.2))
      = l.length := by
  induction l with
  | nil => rfl
  | cons a l ih =>
    by_cases h : a.1 = a.2 <;> simp [List.countP_cons, h, ← ih] <;> omega

/-- Zipping a list with itself produces no differing pair. -/
theorem countP_differ_zip_self (l : List Char) :
    (List.zip l l).countP (fun p => decide (p.1 ≠ p.2)) = 0 := by
  induction l with
  | nil => rfl
  | cons a l ih =>
    rw [List.zip_cons_cons, List.countP_cons, ih]
    simp

/-- C7: the structural similarity is the fraction of agreeing character
positions for equal-length non-empty strings, is 0 for strings of different
lengths, is 1 for identical non-empty strings, and is 0 when every position
differs.  (On two empty strings the Python code raises `ZeroDivisionError`,
modelled by `none`; the fraction and all-differ statements therefore carry a
non-emptiness hypothesis.) -/
theorem c7_hamming_spec (hash1 hash2 : List Char) :
    (hash1.length ≠ hash2.length → hamming_distance hash1 hash2 = some 0)
    ∧ (hash1.length = hash2.length → hash1 ≠ [] →
        hamming_distance hash1 hash2
          = some (((List.zip hash1 hash2).countP (fun p => decide (p.1 = p.2)) : ℚ)
              / (hash1.length : ℚ)))
    ∧ (hash1 = hash2 → hash1 ≠ [] → hamming_distance hash1 hash2 = some 1)
    ∧ (hash1.length = hash2.length → hash1 ≠ [] →
        (∀ i (hi1 : i < hash1.length) (hi2 : i < hash2.length),
            hash1.get ⟨i, hi1⟩ ≠ hash2.get ⟨i, hi2⟩) →
        hamming_distance hash1 hash2 = some 0) := by
  refine ⟨?_, ?_, ?_, ?_⟩
  · intro h
    simp [hamming_distance, h]
  · intro hlen hne
    have hpos : 0 < hash1.length := List.length_pos.mpr hne
    have hz : (List.zip hash1 hash2).length = hash1.length := by
      rw [List.length_zip, hlen, min_self]
    have hadd := countP_agree_add_countP_differ (List.zip hash1 hash2)
    rw [hz] at hadd
    have hcast : ((List.zip hash1 hash2).countP (fun p => decide (p.1 = p.2)) : ℚ)
        + ((List.zip hash1 hash2).countP (fun p => decide (p.1 ≠ p.2)) : ℚ)
        = (hash1.length : ℚ) := by exact_mod_cast congrArg Nat.cast hadd
    have hLq : (hash1.length : ℚ) ≠ 0 := by
      exact_mod_cast hpos.ne'
    simp only [hamming_distance, if_neg (by simp [hlen] : ¬ hash1.length ≠ hash2.length),
      if_neg (by omega : ¬ hash1.length = 0), Option.some.injEq]
    simp only [ne_eq, decide_not] at hcast ⊢
    field_simp
    linarith
  · rintro rfl hne
    have hpos : 0 < hash1.length := List.length_pos.mpr hne
    have hLq : (hash1.length : ℚ) ≠ 0 := by
      exact_mod_cast hpos.ne'
    simp only [hamming_distance, if_neg (by simp : ¬ hash1.length ≠ hash1.length),
      if_neg (by omega : ¬ hash1.length = 0), countP_differ_zip_self, Option.some.injEq]
    norm_num
  · intro hlen hne hdiff
    have hpos : 0 < hash1.length := List.length_pos.mpr hne
    have hz : (List.zip hash1 hash2).length = hash1.length := by
      rw [List.length_zip, hlen, min_self]
    have hall : ∀ p ∈ List.zip hash1 hash2, (fun p : Char × Char => decide (p.1 ≠ p.2)) p := by
      intro p hp
      obtain ⟨n, hget⟩ := List.mem_iff_get.mp hp
      rw [List.get_zip] at hget
      subst hget
      simpa using hdiff n.val _ _
    have hcount : (List.zip hash1 hash2).countP (fun p => decide (p.1 ≠ p.2))
        = hash1.length := by
      rw [List.countP_eq_length.mpr hall, hz]
    have hLq : (hash1.length : ℚ) ≠ 0 := by
      exact_mod_cast hpos.ne'
    simp only [hamming_distance, if_neg (by simp [hlen] : ¬ hash1.length ≠ hash2.length),
      if_neg (by omega : ¬ hash1.length = 0), hcount, Option.some.injEq]
    field_simp

/-- C7 witness: the hash pair "ab" / "ac" agrees at one of its two positions,
so the similarity is 1/2. -/
theorem c7_hamming_witness :
    (['a', 'b'] : List Char).length = (['a', 'c'] : List Char).length
    ∧ (['a', 'b'] : List Char) ≠ []
    ∧ hamming_distance ['a', 'b'] ['a', 'c'] = some (1/2) := by
  have h := (c7_hamming_spec ['a', 'b'] ['a', 'c']).2.1 rfl (by decide)
  have hc : (List.zip ['a', 'b'] ['a', 'c']).countP
      (fun p : Char × Char => decide (p.1 = p.2)) = 1 := rfl
  refine ⟨rfl, by decide, ?_⟩
  rw [h, hc]
  norm_num

/-- C6: a submission whose time window end does not exceed its start, or one
with more than 5 images, is rejected with a 422 validation failure; the
outcome is independent of the pipeline body (no fingerprint or embedding work
and no state creation happens), and with valid enum fields the rejection
carries the exact time-window or 5-image-limit message. -/
theorem c6_validation_rejection {α : Type} (run_pipeline : ClaimForm → List (List ℕ) → α)
    (form : ClaimForm) (damage_images : List (List ℕ)) :
    (form.incident_time_window_end ≤ form.incident_time_window_start →
        (analyze_claim run_pipeline form damage_images).isErr = true)
    ∧ (damage_images.length > 5 →
        (analyze_claim run_pipeline form damage_images).isErr = true)
    ∧ (∀ run2 : ClaimForm → List (List ℕ) → α,
        (form.incident_time_window_end ≤ form.incident_time_window_start
            ∨ damage_images.length > 5) →
        analyze_claim run_pipeline form damage_images
          = analyze_claim run2 form damage_images)
    ∧ (form.incident_type ∈ incident_type_values →
        form.location_zone ∈ location_zone_values →
        form.incident_time_window_end ≤ form.incident_time_window_start →
        analyze_claim run_pipeline form damage_images
          = .error 422 "Time window end must be after time window start")
    ∧ (form.incident_type ∈ incident_type_values →
        form.location_zone ∈ location_zone_values →
        form.incident_time_window_start < form.incident_time_window_end →
        damage_images.length > 5 →
        analyze_claim run_pipeline form damage_images
          = .error 422 "Maximum 5 images allowed per claim") := by
  refine ⟨?_, ?_, ?_, ?_, ?_⟩
  · intro h
    simp only [analyze_claim]
    split_ifs <;> first | rfl | omega
  · intro h
    simp only [analyze_claim]
    split_ifs <;> first | rfl | omega
  · intro run2 h
    simp only [analyze_claim]
    split_ifs <;> first | rfl | omega
  · intro ht hz h
    simp only [analyze_claim]
    split_ifs <;> first | rfl | omega | tauto
  · intro ht hz hwin h
    simp only [analyze_claim]
    split_ifs <;> first | rfl | omega | tauto

/-- C6 witness: a concrete submission with a degenerate time window (and one
with six images) is rejected with the corresponding 422 message while the
pipeline body is arbitrary. -/
theorem c6_validation_rejection_witness :
    ((⟨"collision", "dented door", "zone_a", 0, 5, 5⟩ : ClaimForm).incident_time_window_end
        ≤ (⟨"collision", "dented door", "zone_a", 0, 5, 5⟩ : ClaimForm).incident_time_window_start)
    ∧ analyze_claim (fun _ _ => (0 : ℕ)) ⟨"collision", "dented door", "zone_a", 0, 5, 5⟩ []
        = .error 422 "Time window end must be after time window start"
    ∧ analyze_claim (fun _ _ => (0 : ℕ)) ⟨"collision", "dented door", "zone_a", 0, 5, 6⟩
        [[], [], [], [], [], []]
        = .error 422 "Maximum 5 images allowed per claim" := by
  refine ⟨le_refl _, ?_, ?_⟩
  · exact (c6_validation_rejection (fun _ _ => (0 : ℕ))
      ⟨"collision", "dented door", "zone_a", 0, 5, 5⟩ []).2.2.2.1
      (by decide) (by decide) (le_refl _)
  · exact (c6_validation_rejection (fun _ _ => (0 : ℕ))
      ⟨"collision", "dented door", "zone_a", 0, 5, 6⟩ [[], [], [], [], [], []]).2.2.2.2
      (by decide) (by decide) (by norm_num) (by norm_num)

/-- C10: the temporal fingerprint ignores the time-window arguments entirely,
and depends on the incident date only through its day of week, month name,
4-hour hour bucket and day of month (for any digest function). -/
theorem c10_temporal_fingerprint_spec :
    (∀ (md5hex : String → String) (d s1 e1 s2 e2 : PyDateTime),
        generate_temporal_fingerprint md5hex d s1 e1
          = generate_temporal_fingerprint md5hex d s2 e2)
    ∧ (∀ (md5hex : String → String) (d1 d2 s1 e1 s2 e2 : PyDateTime),
        strftimeA d1 = strftimeA d2 → strftimeB d1 = strftimeB d2 →
        d1.hour / 4 = d2.hour / 4 → d1.day = d2.day →
        generate_temporal_fingerprint md5hex d1 s1 e1
          = generate_temporal_fingerprint md5hex d2 s2 e2) := by
  constructor
  · intro md5hex d s1 e1 s2 e2
    rfl
  · intro md5hex d1 d2 s1 e1 s2 e2 hA hB hH hD
    unfold generate_temporal_fingerprint temporal_str
    rw [hA, hB, hH, hD]

/-- C10 witness: two datetimes on the same calendar day whose hours 3 and 2
fall in the same 4-hour bucket give identical temporal fingerprints, for any
choice of time windows. -/
theorem c10_temporal_fingerprint_witness :
    strftimeA ⟨2024, 5, 17, 3⟩ = strftimeA ⟨2024, 5, 17, 2⟩
    ∧ strftimeB ⟨2024, 5, 17, 3⟩ = strftimeB ⟨2024, 5, 17, 2⟩
    ∧ (3 : ℕ) / 4 = (2 : ℕ) / 4
    ∧ generate_temporal_fingerprint id ⟨2024, 5, 17, 3⟩ ⟨2024, 5, 17, 0⟩ ⟨2024, 5, 17, 8⟩
        = generate_temporal_fingerprint id ⟨2024, 5, 17, 2⟩ ⟨2024, 5, 16, 0⟩ ⟨2024, 5, 18, 0⟩ := by
  refine ⟨rfl, rfl, rfl, ?_⟩
  exact c10_temporal_fingerprint_spec.2 id ⟨2024, 5, 17, 3⟩ ⟨2024, 5, 17, 2⟩ _ _ _ _
    rfl rfl rfl rfl

/-- The hash-based fallback embedding always has exactly `dim` entries. -/
theorem generate_fallback_embedding_length (sha256 : List ℕ → List ℕ)
    (data : List ℕ) (dim : ℕ) :
    (generate_fallback_embedding sha256 data dim).length = dim := by
  simp [generate_fallback_embedding]

/-- The element-wise mean of a non-empty family of equal-length vectors keeps
that length. -/
theorem elementwise_mean_length (vs : List (List ℚ)) (n : ℕ)
    (hne : vs ≠ []) (hlen : ∀ v ∈ vs, v.length = n) :
    (elementwise_mean vs).length = n := by
  match vs, hne with
  | v :: rest, _ =>
    have hfold : ∀ (l : List (List ℚ)) (acc : List ℚ), acc.length = n →
        (∀ w ∈ l, w.length = n) →
        (l.foldl (fun acc w => List.zipWith (· + ·) acc w) acc).length = n := by
      intro l
      induction l with
      | nil => intro acc hacc _; exact hacc
      | cons w l ih =>
        intro acc hacc hl
        simp only [List.foldl_cons]
        exact ih _ (by simp [List.length_zipWith, hacc, hl w (by simp)])
          (fun u hu => hl u (by simp [hu]))
    simp only [elementwise_mean, List.length_map]
    exact hfold rest v (hlen v (by simp)) (fun u hu => hlen u (by simp [hu]))

/-- C3 counterexample: a claim submitted with zero images persists a
128-dimensional placeholder image embedding next to a 768-dimensional text
embedding, contradicting the claimed common dimensionality of 768. -/
theorem c3_placeholder_dim_counterexample :
    (submit_claim_fingerprint (fun _ => List.replicate 32 0) (fun _ => true) id
        "other" "Minor scratch on bumper" "zone_a"
        ⟨2024, 1, 1, 10⟩ ⟨2024, 1, 1, 9⟩ ⟨2024, 1, 1, 11⟩ []).image_embedding.length = 128
    ∧ (submit_claim_fingerprint (fun _ => List.replicate 32 0) (fun _ => true) id
        "other" "Minor scratch on bumper" "zone_a"
        ⟨2024, 1, 1, 10⟩ ⟨2024, 1, 1, 9⟩ ⟨2024, 1, 1, 11⟩ []).text_embedding.length = 768
    ∧ (128 : ℕ) ≠ 768 := by
  refine ⟨?_, ?_, by decide⟩
  · simp [submit_claim_fingerprint]
  · simp [submit_claim_fingerprint, generate_fallback_embedding_length]

/-- C3 (amended): the persisted text embedding always has dimensionality 768;
the image embedding has dimensionality 768 when at least one image passes
validation, but a claim submitted with zero images (or only invalid images)
persists the 128-dimensional placeholder image embedding instead. -/
theorem c3_embedding_dims (sha256 : List ℕ → List ℕ) (valid : List ℕ → Bool)
    (md5hex : String → String) (incident_type damage_description location_zone : String)
    (d s e : PyDateTime) (image_files : List (List ℕ)) :
    (submit_claim_fingerprint sha256 valid md5hex incident_type damage_description
        location_zone d s e image_files).text_embedding.length = 768
    ∧ (image_files = [] →
        (submit_claim_fingerprint sha256 valid md5hex incident_type damage_description
          location_zone d s e image_files).image_embedding.length = 128)
    ∧ (image_files.filter valid ≠ [] →
        (submit_claim_fingerprint sha256 valid md5hex incident_type damage_description
          location_zone d s e image_files).image_embedding.length = 768)
    ∧ (image_files ≠ [] → image_files.filter valid = [] →
        (submit_claim_fingerprint sha256 valid md5hex incident_type damage_description
          location_zone d s e image_files).image_embedding.length = 128) := by
  refine ⟨?_, ?_, ?_, ?_⟩
  · simp [submit_claim_fingerprint, generate_fallback_embedding_length]
  · intro h
    simp [submit_claim_fingerprint, h]
  · intro h
    have hne : image_files ≠ [] := by
      intro hcon
      simp [hcon] at h
    have hmapne : (image_files.filter valid).map
        (fun b => generate_fallback_embedding sha256 b) ≠ [] := by
      simpa using h
    simp only [submit_claim_fingerprint, process_images, if_neg hne, Option.getD_some]
    rw [if_neg hmapne]
    exact elementwise_mean_length _ 768 hmapne (by
      intro v hv
      obtain ⟨b, _, rfl⟩ := List.mem_map.mp hv
      exact generate_fallback_embedding_length sha256 b 768)
  · intro hne h
    simp [submit_claim_fingerprint, process_images, if_neg hne, h,
      placeholder_image_embedding]

/-- C3 witness: the amended dimensionality facts evaluated on a zero-image
submission and on a one-image submission. -/
theorem c3_embedding_dims_witness :
    (submit_claim_fingerprint (fun _ => List.replicate 32 0) (fun _ => true) id
        "fire" "Engine caught fire" "zone_b"
        ⟨2023, 7, 2, 14⟩ ⟨2023, 7, 2, 12⟩ ⟨2023, 7, 2, 16⟩ []).image_embedding.length = 128
    ∧ ([[7]].filter (fun _ => true) ≠ [])
    ∧ (submit_claim_fingerprint (fun _ => List.replicate 32 0) (fun _ => true) id
        "fire" "Engine caught fire" "zone_b"
        ⟨2023, 7, 2, 14⟩ ⟨2023, 7, 2, 12⟩ ⟨2023, 7, 2, 16⟩ [[7]]).image_embedding.length = 768 := by
  refine ⟨?_, by decide, ?_⟩
  · exact (c3_embedding_dims (fun _ => List.replicate 32 0) (fun _ => true) id
      "fire" "Engine caught fire" "zone_b"
      ⟨2023, 7, 2, 14⟩ ⟨2023, 7, 2, 12⟩ ⟨2023, 7, 2, 16⟩ []).2.1 rfl
  · exact (c3_embedding_dims (fun _ => List.replicate 32 0) (fun _ => true) id
      "fire" "Engine caught fire" "zone_b"
      ⟨2023, 7, 2, 14⟩ ⟨2023, 7, 2, 12⟩ ⟨2023, 7, 2, 16⟩ [[7]]).2.2.1 (by decide)

/-- The sum of squared entries of a vector is nonnegative. -/
theorem sum_map_sq_nonneg (v : List ℝ) : 0 ≤ (v.map fun x => x * x).sum :=
  List.sum_nonneg (by
    intro x hx
    obtain ⟨y, _, rfl⟩ := List.mem_map.mp hx
    exact mul_self_nonneg y)

/-- The Euclidean norm vanishes exactly when the sum of squares does. -/
theorem vec_norm_eq_zero_iff (v : List ℝ) :
    vec_norm v = 0 ↔ (v.map fun x => x * x).sum = 0 := by
  rw [vec_norm, Real.sqrt_eq_zero']
  constructor
  · intro h
    exact le_antisymm h (sum_map_sq_nonneg v)
  · intro h
    exact h.le

/-- The dot product of two equal-length vectors as a `Finset.range` sum. -/
theorem zipWith_mul_sum_eq_finset (v1 v2 : List ℝ) (h : v1.length = v2.length) :
    (List.zipWith (· * ·) v1 v2).sum
      = ∑ i ∈ Finset.range v1.length, v1.getD i 0 * v2.getD i 0 := by
  induction v1 generalizing v2 with
  | nil => simp
  | cons a t ih =>
    cases v2 with
    | nil => simp at h
    | cons b u =>
      simp only [List.zipWith_cons_cons, List.sum_cons, List.length_cons]
      rw [Finset.sum_range_succ']
      simp only [List.getD_cons_succ, List.getD_cons_zero]
      rw [ih u (by simpa using h)]
      ring

/-- The sum of squared entries as a `Finset.range` sum. -/
theorem map_sq_sum_eq_finset (v : List ℝ) :
    (v.map fun x => x * x).sum = ∑ i ∈ Finset.range v.length, v.getD i 0 ^ 2 := by
  induction v with
  | nil => simp
  | cons a t ih =>
    simp only [List.map_cons, List.sum_cons, List.length_cons]
    rw [Finset.sum_range_succ']
    simp only [List.getD_cons_succ, List.getD_cons_zero]
    rw [ih]
    ring

/-- Cauchy-Schwarz for the list dot product, squared form. -/
theorem dot_product_sq_le (v1 v2 : List ℝ) (h : v1.length = v2.length) :
    dot_product v1 v2 ^ 2
      ≤ ((v1.map fun x => x * x).sum) * ((v2.map fun x => x * x).sum) := by
  rw [dot_product, zipWith_mul_sum_eq_finset v1 v2 h, map_sq_sum_eq_finset,
    map_sq_sum_eq_finset, ← h]
  exact Finset.sum_mul_sq_le_sq_mul_sq (Finset.range v1.length)
    (fun i => v1.getD i 0) (fun i => v2.getD i 0)

/-- Zipping a vector multiplicatively with itself squares its entries. -/
theorem zipWith_mul_self (v : List ℝ) :
    List.zipWith (· * ·) v v = v.map fun x => x * x := by
  induction v with
  | nil => rfl
  | cons a t ih => simp [ih]

/-- C8: the embedding similarity is 0 whenever either vector has zero norm,
and otherwise equals the cosine of the two vectors remapped to [0, 1] via
(cos + 1) / 2 (the `max` with 0 in the code is redundant by Cauchy-Schwarz);
the similarity of a positive-norm vector with itself is 1, and with the zero
vector is 0. -/
theorem c8_cosine_spec :
    (∀ v1 v2 : List ℝ, v1.length = v2.length →
        (vec_norm v1 = 0 ∨ vec_norm v2 = 0) → cosine_similarity v1 v2 = some 0)
    ∧ (∀ v1 v2 : List ℝ, v1.length = v2.length →
        vec_norm v1 ≠ 0 → vec_norm v2 ≠ 0 →
        cosine_similarity v1 v2
          = some ((dot_product v1 v2 / (vec_norm v1 * vec_norm v2) + 1) / 2))
    ∧ (∀ v : List ℝ, vec_norm v ≠ 0 → cosine_similarity v v = some 1)
    ∧ (∀ v : List ℝ, cosine_similarity v (List.replicate v.length 0) = some 0) := by
  refine ⟨?_, ?_, ?_, ?_⟩
  · intro v1 v2 h hz
    simp only [cosine_similarity, if_neg (by simp [h] : ¬ v1.length ≠ v2.length)]
    rw [if_pos hz]
  · intro v1 v2 h h1 h2
    simp only [cosine_similarity, if_neg (by simp [h] : ¬ v1.length ≠ v2.length)]
    rw [if_neg (by tauto : ¬ (vec_norm v1 = 0 ∨ vec_norm v2 = 0))]
    have hp1 : 0 < vec_norm v1 := lt_of_le_of_ne (Real.sqrt_nonneg _) (Ne.symm h1)
    have hp2 : 0 < vec_norm v2 := lt_of_le_of_ne (Real.sqrt_nonneg _) (Ne.symm h2)
    have hprod : 0 < vec_norm v1 * vec_norm v2 := mul_pos hp1 hp2
    have hsq : (vec_norm v1 * vec_norm v2) ^ 2
        = ((v1.map fun x => x * x).sum) * ((v2.map fun x => x * x).sum) := by
      rw [mul_pow, vec_norm, vec_norm, Real.sq_sqrt (sum_map_sq_nonneg v1),
        Real.sq_sqrt (sum_map_sq_nonneg v2)]
    have hcs := dot_product_sq_le v1 v2 h
    have hge : -(vec_norm v1 * vec_norm v2) ≤ dot_product v1 v2 := by
      nlinarith [sq_nonneg (dot_product v1 v2 + vec_norm v1 * vec_norm v2)]
    have hcos : (-1 : ℝ) ≤ dot_product v1 v2 / (vec_norm v1 * vec_norm v2) := by
      rw [le_div_iff hprod]
      linarith
    have hq : (0:ℝ) ≤ (dot_product v1 v2 / (vec_norm v1 * vec_norm v2) + 1) / 2 := by
      linarith
    congr 1
    exact max_eq_right hq
  · intro v hv
    have hS : (v.map fun x => x * x).sum ≠ 0 := fun hc =>
      hv ((vec_norm_eq_zero_iff v).mpr hc)
    simp only [cosine_similarity, if_neg (by simp : ¬ v.length ≠ v.length)]
    rw [if_neg (by tauto : ¬ (vec_norm v = 0 ∨ vec_norm v = 0))]
    have hdot : dot_product v v = (v.map fun x => x * x).sum := by
      rw [dot_product, zipWith_mul_self]
    have hnn : vec_norm v * vec_norm v = (v.map fun x => x * x).sum :=
      Real.mul_self_sqrt (sum_map_sq_nonneg v)
    rw [hdot, hnn, div_self hS]
    norm_num
  · intro v
    have hz : vec_norm (List.replicate v.length (0:ℝ)) = 0 := by
      rw [vec_norm]
      simp
    simp only [cosine_similarity,
      if_neg (by simp : ¬ v.length ≠ (List.replicate v.length (0:ℝ)).length)]
    rw [if_pos (Or.inr hz)]

/-- C8 witness: the one-entry vector [1] has norm 1, its similarity with
itself is 1, and its similarity with the zero vector is 0. -/
theorem c8_cosine_witness :
    vec_norm [(1:ℝ)] ≠ 0
    ∧ cosine_similarity [(1:ℝ)] [(1:ℝ)] = some 1
    ∧ cosine_similarity [(1:ℝ)] (List.replicate ([(1:ℝ)].length) 0) = some 0 := by
  have hn : vec_norm [(1:ℝ)] = 1 := by
    simp [vec_norm]
  refine ⟨by rw [hn]; norm_num, ?_, c8_cosine_spec.2.2.2 [(1:ℝ)]⟩
  exact c8_cosine_spec.2.2.1 [(1:ℝ)] (by rw [hn]; norm_num)

/-- C2: every scored comparison carries overall similarity
0.25·text + 0.35·image + 0.20·spatial + 0.20·temporal; a scored record
enters the match list exactly when its overall similarity exceeds 0.30; and
the scan returns the match list sorted descending by overall similarity,
truncated to the top-K limit, which defaults to 10. -/
theorem c2_similarity_scan_spec (q : QueryFingerprint)
    (historical : List HistoricalFingerprint) (limit : ℕ) :
    (∀ incident e, score_incident q incident = some e →
        e.overall_similarity = e.text_similarity * 0.25 + e.image_similarity * 0.35
          + e.spatial_similarity * 0.20 + e.temporal_similarity * 0.20)
    ∧ (∀ e ∈ match_list q historical, e.overall_similarity > 0.3)
    ∧ (∀ incident ∈ historical, ∀ e, score_incident q incident = some e →
        e.overall_similarity > 0.3 → e ∈ match_list q historical)
    ∧ find_similar_incidents q historical limit
        = (sort_matches (match_list q historical)).take limit
    ∧ (sort_matches (match_list q historical)).Perm (match_list q historical)
    ∧ List.Sorted byOverallDesc (find_similar_incidents q historical limit)
    ∧ (find_similar_incidents q historical limit).length ≤ limit
    ∧ find_similar_incidents q historical = find_similar_incidents q historical 10 := by
  refine ⟨?_, ?_, ?_, rfl, ?_, ?_, ?_, rfl⟩
  · intro incident e hscore
    simp only [score_incident, Option.bind_eq_bind, Option.bind_eq_some,
      Option.pure_def, Option.some.injEq] at hscore
    obtain ⟨claim, hc, t, ht, i, hi, sq, hsq, tq, htq, he⟩ := hscore
    subst he
    rfl
  · intro e he
    simp only [match_list, List.mem_filterMap, Option.bind_eq_some] at he
    obtain ⟨incident, hmem, e2, hs, hif⟩ := he
    by_cases hgt : e2.overall_similarity > 0.3
    · rw [if_pos hgt] at hif
      cases hif
      exact hgt
    · rw [if_neg hgt] at hif
      exact absurd hif (by simp)
  · intro incident hmem e hs hgt
    refine List.mem_filterMap.mpr ⟨incident, hmem, ?_⟩
    rw [hs, Option.some_bind, if_pos hgt]
  · exact List.perm_insertionSort byOverallDesc _
  · exact List.Pairwise.sublist (List.take_sublist _ _)
      (List.sorted_insertionSort byOverallDesc _)
  · simp only [find_similar_incidents]
    rw [List.length_take]
    exact min_le_left _ _

/-- C2 witness: scoring the sample incident against the sample query yields
overall similarity 0.4 > 0.3, and the record therefore appears in the match
list of a one-record corpus. -/
theorem c2_similarity_scan_witness :
    sample_incident ∈ [sample_incident]
    ∧ score_incident sample_query sample_incident = some sample_match
    ∧ sample_match.overall_similarity > 0.3
    ∧ sample_match ∈ match_list sample_query [sample_incident] := by
  have hn : vec_norm [(0:ℝ)] = 0 := by
    simp [vec_norm]
  have hcos : cosine_similarity [(0:ℝ)] [(0:ℝ)] = some 0 := by
    simp only [cosine_similarity, if_neg (by simp : ¬ ([(0:ℝ)].length ≠ [(0:ℝ)].length))]
    rw [if_pos (Or.inl hn)]
  have hham : hamming_distance ['a'] ['a'] = some 1 := by
    simp only [hamming_distance,
      if_neg (by decide : ¬ (['a'] : List Char).length ≠ (['a'] : List Char).length),
      if_neg (by decide : ¬ (['a'] : List Char).length = 0), countP_differ_zip_self]
    norm_num
  have hscore : score_incident sample_query sample_incident = some sample_match := by
    simp only [score_incident, sample_query, sample_incident, hcos, hham,
      Option.some_bind, Option.getD_some, Option.pure_def, Option.some.injEq]
    simp only [sample_match, SimilarityMatch.mk.injEq]
    norm_num
  have hgt : sample_match.overall_similarity > 0.3 := by
    norm_num [sample_match]
  exact ⟨by simp, hscore, hgt,
    (c2_similarity_scan_spec sample_query [sample_incident] 10).2.2.1 sample_incident
      (by simp) sample_match hscore hgt⟩

end FraudDetector
